import Mathlib

/-!
Stack-Lend: a shallow embedding of `contracts/p2p-lending.clar`.

This file embeds the Clarity contract `p2p-lending.clar` (together with the
token contract `sbtc-token.clar` it calls) into Lean and proves properties of
the loan lifecycle.

Modelling notes, all taken from the source and the Clarity language semantics
the source runs under:

* A `Principal` is either the p2p-lending contract's own principal
  (`Principal.contract`, the value of `(as-contract tx-sender)` inside the
  contract, bound to `contract-self` in the source) or an external account
  `Principal.user n`.
* The mutable state is the pair of balance tables (native STX balances and
  sBTC fungible-token balances) plus the `loans` map.
* `stx-transfer? amount sender recipient` follows the Clarity built-in: it
  fails with code 3 when the amount is zero, 2 when sender = recipient,
  4 when the sender is not the current `tx-sender`, and 1 on insufficient
  balance.  The source calls it directly (never under `as-contract`), so the
  `tx-sender` seen by the built-in is always the external caller of the
  public function.
* The sBTC leg goes through `sbtc-token.clar`'s `transfer`, which first
  asserts `tx-sender = sender ∨ contract-caller = sender` (error `u201`) and
  then performs `ft-transfer?` (codes 3 zero amount, 2 sender = recipient,
  1 insufficient balance).  Since every token leg is issued by the lending
  contract via `contract-call?`, the `contract-caller` seen by the token
  contract is the lending contract's principal, while `tx-sender` is the
  external caller.
* A Clarity public function that returns `(err e)` rolls back every state
  change it made; `runCall` returns `Except` with no state in the error, and
  `applyCall` commits a state only on `ok`, mirroring that transactional
  semantics.
-/

namespace StackLend

/-- An on-chain identity: the lending contract itself or an external account. -/
inductive Principal where
  | contract : Principal
  | user : Nat → Principal
deriving DecidableEq, Repr

/-- The `loans` map entry of `p2p-lending.clar`. -/
structure Loan where
  borrower : Principal
  lender : Option Principal
  principalIsStx : Bool
  principalAmount : Nat
  collateralIsStx : Bool
  collateralAmount : Nat
  repayAmount : Nat
  startBlock : Nat
  endBlock : Nat
  status : Nat
deriving DecidableEq, Repr

/-- The mutable chain state the contract touches: STX balances, sBTC balances
and the `loans` map. -/
structure State where
  stx : Principal → Nat
  sbtc : Principal → Nat
  loans : Nat → Option Loan

/-- Per-transaction context: the transaction signer and the current
`block-height`. -/
structure Ctx where
  txSender : Principal
  blockHeight : Nat
deriving DecidableEq, Repr

/-! Status and error constants of `p2p-lending.clar`. -/

def STATUS_OPEN : Nat := 0
def STATUS_FUNDED : Nat := 1
def STATUS_REPAID : Nat := 2
def STATUS_DEFAULTED : Nat := 3
def STATUS_CANCELLED : Nat := 4

def ERR_LOAN_EXISTS : Nat := 100
def ERR_LOAN_NOT_FOUND : Nat := 101
def ERR_NOT_BORROWER : Nat := 102
def ERR_NOT_LENDER : Nat := 103
def ERR_NOT_OPEN : Nat := 104
def ERR_NOT_FUNDED : Nat := 105
def ERR_PAST_DUE : Nat := 106
def ERR_NOT_PAST_DUE : Nat := 107
def ERR_BAD_AMOUNT : Nat := 108
def ERR_SAME_ASSET : Nat := 109
def ERR_NO_LENDER : Nat := 110
def ERR_BAD_REPAY : Nat := 111

/-- `sbtc-token.clar`: `ERR-UNAUTHORIZED`. -/
def ERR_UNAUTHORIZED : Nat := 201

/-- `(define-private (contract-self) (as-contract tx-sender))`. -/
def contractSelf : Principal := Principal.contract

/-- The Clarity built-in `stx-transfer?`.  `txSender` is the `tx-sender` of
the executing context (the external caller; the source never uses
`as-contract` around a transfer).  Error codes are the built-in's:
3 zero amount, 2 sender is recipient, 4 sender is not `tx-sender`,
1 insufficient balance. -/
def stxTransfer (txSender sender recipient : Principal) (amount : Nat)
    (s : State) : Except Nat State :=
  if amount = 0 then .error 3
  else if sender = recipient then .error 2
  else if sender ≠ txSender then .error 4
  else if s.stx sender < amount then .error 1
  else .ok { s with
    stx := fun p =>
      if p = sender then s.stx p - amount
      else if p = recipient then s.stx p + amount
      else s.stx p }

/-- `sbtc-token.clar`'s public `transfer` as called by the lending contract:
the authorization assert (`tx-sender = sender ∨ contract-caller = sender`,
error 201) followed by the `ft-transfer?` built-in (codes 3 zero amount,
2 sender is recipient, 1 insufficient balance). -/
def tokenTransfer (txSender contractCaller sender recipient : Principal)
    (amount : Nat) (s : State) : Except Nat State :=
  if txSender = sender ∨ contractCaller = sender then
    if amount = 0 then .error 3
    else if sender = recipient then .error 2
    else if s.sbtc sender < amount then .error 1
    else .ok { s with
      sbtc := fun p =>
        if p = sender then s.sbtc p - amount
        else if p = recipient then s.sbtc p + amount
        else s.sbtc p }
  else .error ERR_UNAUTHORIZED

/-- `(define-private (transfer-asset (is-stx bool) (amount uint) (sender principal) (recipient principal)) ...)`.
The token branch is a `contract-call?` from the lending contract, so the
token contract sees `contract-caller = contractSelf`. -/
def transferAsset (ctx : Ctx) (isStx : Bool) (amount : Nat)
    (sender recipient : Principal) (s : State) : Except Nat State :=
  if isStx then stxTransfer ctx.txSender sender recipient amount s
  else tokenTransfer ctx.txSender contractSelf sender recipient amount s

/-- `(map-set loans {loan-id: loan-id} l)`. -/
def setLoan (s : State) (loanId : Nat) (l : Loan) : State :=
  { s with loans := fun k => if k = loanId then some l else s.loans k }

/-- `(define-read-only (get-loan (loan-id uint)) (map-get? loans ...))`. -/
def getLoan (s : State) (loanId : Nat) : Option Loan :=
  s.loans loanId

/-- Repay's deadline guard `(<= block-height (get end-block loan))`. -/
def repayOnTime (blockHeight endBlock : Nat) : Bool :=
  decide (blockHeight ≤ endBlock)

/-- ClaimDefault's deadline guard `(> block-height (get end-block loan))`. -/
def pastDue (blockHeight endBlock : Nat) : Bool :=
  decide (endBlock < blockHeight)

/-- `(define-public (create-loan ...))`: the six asserts in source order, the
collateral escrow transfer, then `map-set` with `start-block u0`,
`end-block duration`, status Open. -/
def createLoan (ctx : Ctx) (loanId : Nat) (principalIsStx : Bool)
    (principalAmount repayAmount duration : Nat) (collateralIsStx : Bool)
    (collateralAmount : Nat) (s : State) : Except Nat State :=
  match s.loans loanId with
  | some _ => .error ERR_LOAN_EXISTS
  | none =>
    if principalIsStx = collateralIsStx then .error ERR_SAME_ASSET
    else if principalAmount = 0 then .error ERR_BAD_AMOUNT
    else if collateralAmount = 0 then .error ERR_BAD_AMOUNT
    else if duration = 0 then .error ERR_BAD_AMOUNT
    else if repayAmount < principalAmount then .error ERR_BAD_REPAY
    else
      match transferAsset ctx collateralIsStx collateralAmount ctx.txSender
          contractSelf s with
      | .error e => .error e
      | .ok s1 =>
        .ok (setLoan s1 loanId
          { borrower := ctx.txSender
            lender := none
            principalIsStx := principalIsStx
            principalAmount := principalAmount
            collateralIsStx := collateralIsStx
            collateralAmount := collateralAmount
            repayAmount := repayAmount
            startBlock := 0
            endBlock := duration
            status := STATUS_OPEN })

/-- `(define-public (cancel-loan (loan-id uint)))`. -/
def cancelLoan (ctx : Ctx) (loanId : Nat) (s : State) : Except Nat State :=
  match s.loans loanId with
  | none => .error ERR_LOAN_NOT_FOUND
  | some loan =>
    if loan.status = STATUS_OPEN then
      if ctx.txSender = loan.borrower then
        match transferAsset ctx loan.collateralIsStx loan.collateralAmount
            contractSelf loan.borrower s with
        | .error e => .error e
        | .ok s1 => .ok (setLoan s1 loanId { loan with status := STATUS_CANCELLED })
      else .error ERR_NOT_BORROWER
    else .error ERR_NOT_OPEN

/-- `(define-public (fund-loan (loan-id uint)))`: principal moves caller →
contract, then contract → borrower; then the record gains the lender, the
absolute deadline `block-height + stored end-block` and status Funded. -/
def fundLoan (ctx : Ctx) (loanId : Nat) (s : State) : Except Nat State :=
  match s.loans loanId with
  | none => .error ERR_LOAN_NOT_FOUND
  | some loan =>
    if loan.status = STATUS_OPEN then
      match transferAsset ctx loan.principalIsStx loan.principalAmount
          ctx.txSender contractSelf s with
      | .error e => .error e
      | .ok s1 =>
        match transferAsset ctx loan.principalIsStx loan.principalAmount
            contractSelf loan.borrower s1 with
        | .error e => .error e
        | .ok s2 =>
          .ok (setLoan s2 loanId
            { loan with
              lender := some ctx.txSender
              startBlock := ctx.blockHeight
              endBlock := ctx.blockHeight + loan.endBlock
              status := STATUS_FUNDED })
    else .error ERR_NOT_OPEN

/-- `(define-public (repay (loan-id uint)))`. -/
def repay (ctx : Ctx) (loanId : Nat) (s : State) : Except Nat State :=
  match s.loans loanId with
  | none => .error ERR_LOAN_NOT_FOUND
  | some loan =>
    if loan.status = STATUS_FUNDED then
      if ctx.txSender = loan.borrower then
        if repayOnTime ctx.blockHeight loan.endBlock then
          match loan.lender with
          | none => .error ERR_NO_LENDER
          | some lender =>
            match transferAsset ctx loan.principalIsStx loan.repayAmount
                ctx.txSender lender s with
            | .error e => .error e
            | .ok s1 =>
              match transferAsset ctx loan.collateralIsStx loan.collateralAmount
                  contractSelf loan.borrower s1 with
              | .error e => .error e
              | .ok s2 => .ok (setLoan s2 loanId { loan with status := STATUS_REPAID })
        else .error ERR_PAST_DUE
      else .error ERR_NOT_BORROWER
    else .error ERR_NOT_FUNDED

/-- `(define-public (claim-default (loan-id uint)))`. -/
def claimDefault (ctx : Ctx) (loanId : Nat) (s : State) : Except Nat State :=
  match s.loans loanId with
  | none => .error ERR_LOAN_NOT_FOUND
  | some loan =>
    if loan.status = STATUS_FUNDED then
      if pastDue ctx.blockHeight loan.endBlock then
        match loan.lender with
        | none => .error ERR_NO_LENDER
        | some lender =>
          if ctx.txSender = lender then
            match transferAsset ctx loan.collateralIsStx loan.collateralAmount
                contractSelf lender s with
            | .error e => .error e
            | .ok s1 => .ok (setLoan s1 loanId { loan with status := STATUS_DEFAULTED })
          else .error ERR_NOT_LENDER
      else .error ERR_NOT_PAST_DUE
    else .error ERR_NOT_FUNDED

/-- One write request against the contract: the five public operations. -/
inductive Call where
  | create (loanId : Nat) (principalIsStx : Bool)
      (principalAmount repayAmount duration : Nat) (collateralIsStx : Bool)
      (collateralAmount : Nat)
  | cancel (loanId : Nat)
  | fund (loanId : Nat)
  | repay (loanId : Nat)
  | claimDefault (loanId : Nat)
deriving DecidableEq, Repr

/-- The loan-id a call targets. -/
def Call.loanId : Call → Nat
  | .create i _ _ _ _ _ _ => i
  | .cancel i => i
  | .fund i => i
  | .repay i => i
  | .claimDefault i => i

/-- Dispatch a call to its public function. -/
def runCall (ctx : Ctx) (c : Call) (s : State) : Except Nat State :=
  match c with
  | .create i pS pA rA d cS cA => createLoan ctx i pS pA rA d cS cA s
  | .cancel i => cancelLoan ctx i s
  | .fund i => fundLoan ctx i s
  | .repay i => repay ctx i s
  | .claimDefault i => claimDefault ctx i s

/-- Clarity's transactional commit of a public call: on `(err e)` every state
change of the call is rolled back, so the chain keeps the pre-state. -/
def applyCall (ctx : Ctx) (c : Call) (s : State) : State :=
  match runCall ctx c s with
  | .ok s' => s'
  | .error _ => s

/-- Run a whole transaction trace in ledger order. -/
def applyTrace (tr : List (Ctx × Call)) (s : State) : State :=
  tr.foldl (fun st p => applyCall p.1 p.2 st) s

/-- The status stored for a loan-id, if any. -/
def statusOf (s : State) (loanId : Nat) : Option Nat :=
  (s.loans loanId).map Loan.status

/-- The legal status moves of the lifecycle: creation (absent → Open) and the
four funded/unfunded exits.  Terminal statuses have no outgoing edge and no
edge re-enters Open. -/
def statusEdge (a b : Option Nat) : Prop :=
  (a = none ∧ b = some STATUS_OPEN) ∨
  (a = some STATUS_OPEN ∧ b = some STATUS_FUNDED) ∨
  (a = some STATUS_OPEN ∧ b = some STATUS_CANCELLED) ∨
  (a = some STATUS_FUNDED ∧ b = some STATUS_REPAID) ∨
  (a = some STATUS_FUNDED ∧ b = some STATUS_DEFAULTED)

/-- The three terminal statuses. -/
def terminalStatus (st : Nat) : Prop :=
  st = STATUS_REPAID ∨ st = STATUS_DEFAULTED ∨ st = STATUS_CANCELLED

/-- The Funded-implies-lender invariant of the loans map. -/
def lenderInv (s : State) : Prop :=
  ∀ i l, s.loans i = some l → l.status = STATUS_FUNDED → l.lender.isSome = true

/-- States reachable from a state with an empty loans map by any trace of
(committed) public calls. -/
inductive Reachable : State → Prop where
  | init (s : State) : (∀ i, s.loans i = none) → Reachable s
  | step (ctx : Ctx) (c : Call) (s : State) : Reachable s → Reachable (applyCall ctx c s)

/-! Concrete fixtures mirroring the repo's test scenarios: `uB` plays the
borrower wallet, `uL` the lender wallet. -/

def uB : Principal := Principal.user 1
def uL : Principal := Principal.user 2

/-- The loan of the repo's happy-path test after funding: token principal
1000, STX collateral 500000, repay 1100, funded at step 2 with duration 10. -/
def loanTokenPrincipal : Loan :=
  { borrower := uB, lender := some uL, principalIsStx := false,
    principalAmount := 1000, collateralIsStx := true,
    collateralAmount := 500000, repayAmount := 1100, startBlock := 2,
    endBlock := 12, status := STATUS_FUNDED }

/-- Post-fund chain state of the happy-path test: the contract escrows the
STX collateral, the borrower holds 1200 sBTC (200 minted + 1000 principal). -/
def stateTokenPrincipal : State :=
  { stx := fun p => if p = contractSelf then 500000 else 0,
    sbtc := fun p => if p = uB then 1200 else 0,
    loans := fun k => if k = 1 then some loanTokenPrincipal else none }

/-- A funded loan with STX principal and token collateral. -/
def loanStxPrincipal : Loan :=
  { borrower := uB, lender := some uL, principalIsStx := true,
    principalAmount := 100000, collateralIsStx := false,
    collateralAmount := 500, repayAmount := 110000, startBlock := 5,
    endBlock := 10, status := STATUS_FUNDED }

/-- State carrying `loanStxPrincipal`: borrower can afford the STX repayment,
the contract escrows the token collateral. -/
def stateStxPrincipal : State :=
  { stx := fun p => if p = uB then 200000 else 0,
    sbtc := fun p => if p = contractSelf then 500 else 0,
    loans := fun k => if k = 1 then some loanStxPrincipal else none }

/-- An Open loan with token principal and STX collateral (duration 10 still
stored in `endBlock`). -/
def loanOpenTok : Loan :=
  { borrower := uB, lender := none, principalIsStx := false,
    principalAmount := 1000, collateralIsStx := true,
    collateralAmount := 500000, repayAmount := 1100, startBlock := 0,
    endBlock := 10, status := STATUS_OPEN }

/-- State carrying `loanOpenTok` with the lender funded in sBTC. -/
def stateOpenTok : State :=
  { stx := fun p => if p = contractSelf then 500000 else 0,
    sbtc := fun p => if p = uL then 1200 else 0,
    loans := fun k => if k = 1 then some loanOpenTok else none }

/-- An Open loan with STX principal and token collateral (duration 5), the
shape of the repo's claim-default test before funding. -/
def loanOpenStx : Loan :=
  { borrower := uB, lender := none, principalIsStx := true,
    principalAmount := 100000, collateralIsStx := false,
    collateralAmount := 500, repayAmount := 110000, startBlock := 0,
    endBlock := 5, status := STATUS_OPEN }

/-- State carrying `loanOpenStx` with the lender rich in STX. -/
def stateOpenStx : State :=
  { stx := fun p => if p = uL then 1000000 else 0,
    sbtc := fun p => if p = contractSelf then 500 else 0,
    loans := fun k => if k = 3 then some loanOpenStx else none }

/-- `stateOpenTok` rearranged so the borrower can fund their own loan. -/
def stateSelfTok : State :=
  { stx := fun p => if p = contractSelf then 500000 else 0,
    sbtc := fun p => if p = uB then 1200 else 0,
    loans := fun k => if k = 1 then some loanOpenTok else none }

/-- `stateOpenStx` rearranged so the borrower can fund their own loan. -/
def stateSelfStx : State :=
  { stx := fun p => if p = uB then 1000000 else 0,
    sbtc := fun p => if p = contractSelf then 500 else 0,
    loans := fun k => if k = 3 then some loanOpenStx else none }

/-- A state whose only loan is terminal (Repaid). -/
def stateRepaid : State :=
  { stx := fun _ => 0, sbtc := fun _ => 0,
    loans := fun k =>
      if k = 1 then some { loanTokenPrincipal with status := STATUS_REPAID }
      else none }

/-- The state with no loans and no balances. -/
def emptyState : State :=
  { stx := fun _ => 0, sbtc := fun _ => 0, loans := fun _ => none }

section TransferLemmas

variable {ctx : Ctx} {b : Bool} {amt : Nat} {snd rcp : Principal} {s s' : State}

lemma stxTransfer_ok_cases {t : Principal}
    (h : stxTransfer t snd rcp amt s = .ok s') :
    snd ≠ rcp ∧ s'.loans = s.loans ∧ s'.sbtc = s.sbtc ∧
      s'.stx = fun p =>
        if p = snd then s.stx p - amt
        else if p = rcp then s.stx p + amt
        else s.stx p := by
  unfold stxTransfer at h
  repeat' split at h
  all_goals try exact Except.noConfusion h
  injection h with h
  subst h
  exact ⟨by assumption, rfl, rfl, rfl⟩

lemma tokenTransfer_ok_cases {t cc : Principal}
    (h : tokenTransfer t cc snd rcp amt s = .ok s') :
    snd ≠ rcp ∧ s'.loans = s.loans ∧ s'.stx = s.stx ∧
      s'.sbtc = fun p =>
        if p = snd then s.sbtc p - amt
        else if p = rcp then s.sbtc p + amt
        else s.sbtc p := by
  unfold tokenTransfer at h
  repeat' split at h
  all_goals try exact Except.noConfusion h
  injection h with h
  subst h
  exact ⟨by assumption, rfl, rfl, rfl⟩

lemma transferAsset_ok_loans (h : transferAsset ctx b amt snd rcp s = .ok s') :
    s'.loans = s.loans := by
  unfold transferAsset at h
  split at h
  · exact (stxTransfer_ok_cases h).2.1
  · exact (tokenTransfer_ok_cases h).2.1

lemma transferAsset_ok_ne (h : transferAsset ctx b amt snd rcp s = .ok s') :
    snd ≠ rcp := by
  unfold transferAsset at h
  split at h
  · exact (stxTransfer_ok_cases h).1
  · exact (tokenTransfer_ok_cases h).1

lemma transferAsset_ok_other (h : transferAsset ctx b amt snd rcp s = .ok s')
    (p : Principal) (h1 : p ≠ snd) (h2 : p ≠ rcp) :
    s'.stx p = s.stx p ∧ s'.sbtc p = s.sbtc p := by
  unfold transferAsset at h
  split at h
  · obtain ⟨-, -, hsb, hst⟩ := stxTransfer_ok_cases h
    rw [hsb, hst]
    simp [h1, h2]
  · obtain ⟨-, -, hst, hsb⟩ := tokenTransfer_ok_cases h
    rw [hsb, hst]
    simp [h1, h2]

lemma transferAsset_ok_rcp (h : transferAsset ctx b amt snd rcp s = .ok s') :
    (b = true → s'.stx rcp = s.stx rcp + amt ∧ s'.sbtc rcp = s.sbtc rcp) ∧
    (b = false → s'.sbtc rcp = s.sbtc rcp + amt ∧ s'.stx rcp = s.stx rcp) := by
  unfold transferAsset at h
  split at h
  all_goals rename_i hb
  · obtain ⟨hne, -, hsb, hst⟩ := stxTransfer_ok_cases h
    rw [hsb, hst]
    simp [hb, Ne.symm hne]
  · obtain ⟨hne, -, hst, hsb⟩ := tokenTransfer_ok_cases h
    rw [hsb, hst]
    simp at hb
    simp [hb, Ne.symm hne]

lemma transferAsset_error_codes {e : Nat}
    (h : transferAsset ctx b amt snd rcp s = .error e) :
    e = 1 ∨ e = 2 ∨ e = 3 ∨ e = 4 ∨ e = ERR_UNAUTHORIZED := by
  unfold transferAsset stxTransfer tokenTransfer at h
  repeat' split at h
  all_goals simp_all [ERR_UNAUTHORIZED]

end TransferLemmas

section ShapeLemmas

variable {ctx : Ctx} {i : Nat} {s s' : State}

lemma createLoan_ok {pS cS : Bool} {pA rA d cA : Nat}
    (h : createLoan ctx i pS pA rA d cS cA s = .ok s') :
    s.loans i = none ∧
    ∃ s1, transferAsset ctx cS cA ctx.txSender contractSelf s = .ok s1 ∧
      s' = setLoan s1 i
        { borrower := ctx.txSender, lender := none, principalIsStx := pS,
          principalAmount := pA, collateralIsStx := cS, collateralAmount := cA,
          repayAmount := rA, startBlock := 0, endBlock := d,
          status := STATUS_OPEN } := by
  unfold createLoan at h
  repeat' split at h
  all_goals try exact Except.noConfusion h
  injection h with h
  subst h
  exact ⟨by assumption, _, by assumption, rfl⟩

lemma cancelLoan_ok (h : cancelLoan ctx i s = .ok s') :
    ∃ loan s1, s.loans i = some loan ∧ loan.status = STATUS_OPEN ∧
      ctx.txSender = loan.borrower ∧
      transferAsset ctx loan.collateralIsStx loan.collateralAmount contractSelf
        loan.borrower s = .ok s1 ∧
      s' = setLoan s1 i { loan with status := STATUS_CANCELLED } := by
  unfold cancelLoan at h
  repeat' split at h
  all_goals try exact Except.noConfusion h
  injection h with h
  subst h
  exact ⟨_, _, by assumption, by assumption, by assumption, by assumption, rfl⟩

lemma fundLoan_ok (h : fundLoan ctx i s = .ok s') :
    ∃ loan s1 s2, s.loans i = some loan ∧ loan.status = STATUS_OPEN ∧
      transferAsset ctx loan.principalIsStx loan.principalAmount ctx.txSender
        contractSelf s = .ok s1 ∧
      transferAsset ctx loan.principalIsStx loan.principalAmount contractSelf
        loan.borrower s1 = .ok s2 ∧
      s' = setLoan s2 i
        { loan with
          lender := some ctx.txSender
          startBlock := ctx.blockHeight
          endBlock := ctx.blockHeight + loan.endBlock
          status := STATUS_FUNDED } := by
  unfold fundLoan at h
  repeat' split at h
  all_goals try exact Except.noConfusion h
  injection h with h
  subst h
  exact ⟨_, _, _, by assumption, by assumption, by assumption, by assumption, rfl⟩

lemma repay_ok (h : repay ctx i s = .ok s') :
    ∃ loan lender s1 s2, s.loans i = some loan ∧ loan.status = STATUS_FUNDED ∧
      ctx.txSender = loan.borrower ∧
      repayOnTime ctx.blockHeight loan.endBlock = true ∧
      loan.lender = some lender ∧
      transferAsset ctx loan.principalIsStx loan.repayAmount ctx.txSender
        lender s = .ok s1 ∧
      transferAsset ctx loan.collateralIsStx loan.collateralAmount contractSelf
        loan.borrower s1 = .ok s2 ∧
      s' = setLoan s2 i { loan with status := STATUS_REPAID } := by
  unfold repay at h
  repeat' split at h
  all_goals try exact Except.noConfusion h
  injection h with h
  subst h
  exact ⟨_, _, _, _, by assumption, by assumption, by assumption, by assumption,
    by assumption, by assumption, by assumption, rfl⟩

lemma claimDefault_ok (h : claimDefault ctx i s = .ok s') :
    ∃ loan lender s1, s.loans i = some loan ∧ loan.status = STATUS_FUNDED ∧
      pastDue ctx.blockHeight loan.endBlock = true ∧
      loan.lender = some lender ∧ ctx.txSender = lender ∧
      transferAsset ctx loan.collateralIsStx loan.collateralAmount contractSelf
        lender s = .ok s1 ∧
      s' = setLoan s1 i { loan with status := STATUS_DEFAULTED } := by
  unfold claimDefault at h
  repeat' split at h
  all_goals try exact Except.noConfusion h
  injection h with h
  subst h
  exact ⟨_, _, _, by assumption, by assumption, by assumption, by assumption,
    by assumption, by assumption, rfl⟩

end ShapeLemmas

section MachineLemmas

/-- A successful call leaves every other loan-id untouched and moves its own
loan-id along exactly one lifecycle edge. -/
lemma runCall_ok_loanChange (ctx : Ctx) (c : Call) (s s' : State)
    (h : runCall ctx c s = .ok s') :
    (∀ k, k ≠ c.loanId → s'.loans k = s.loans k) ∧
    ∃ nl, s'.loans c.loanId = some nl ∧
      ((s.loans c.loanId = none ∧ nl.status = STATUS_OPEN ∧ nl.lender = none) ∨
       (∃ ol, s.loans c.loanId = some ol ∧ ol.status = STATUS_OPEN ∧
         nl.status = STATUS_FUNDED ∧ nl.lender = some ctx.txSender) ∨
       (∃ ol, s.loans c.loanId = some ol ∧ ol.status = STATUS_OPEN ∧
         nl.status = STATUS_CANCELLED) ∨
       (∃ ol, s.loans c.loanId = some ol ∧ ol.status = STATUS_FUNDED ∧
         nl.status = STATUS_REPAID) ∨
       (∃ ol, s.loans c.loanId = some ol ∧ ol.status = STATUS_FUNDED ∧
         nl.status = STATUS_DEFAULTED)) := by
  cases c with
  | create i pS pA rA d cS cA =>
    obtain ⟨hnone, s1, htr, rfl⟩ := createLoan_ok h
    refine ⟨fun k hk => ?_,
      { borrower := ctx.txSender, lender := none, principalIsStx := pS,
        principalAmount := pA, collateralIsStx := cS, collateralAmount := cA,
        repayAmount := rA, startBlock := 0, endBlock := d,
        status := STATUS_OPEN }, ?_, Or.inl ⟨hnone, rfl, rfl⟩⟩
    · simp [setLoan, Call.loanId, transferAsset_ok_loans htr,
        Call.loanId] at hk ⊢
      simp [hk]
    · simp [setLoan, Call.loanId]
  | cancel i =>
    obtain ⟨loan, s1, hsome, hopen, hcaller, htr, rfl⟩ := cancelLoan_ok h
    refine ⟨fun k hk => ?_, { loan with status := STATUS_CANCELLED }, ?_,
      Or.inr (Or.inr (Or.inl ⟨loan, hsome, hopen, rfl⟩))⟩
    · simp [setLoan, Call.loanId, transferAsset_ok_loans htr] at hk ⊢
      simp [hk]
    · simp [setLoan, Call.loanId]
  | fund i =>
    obtain ⟨loan, s1, s2, hsome, hopen, htr1, htr2, rfl⟩ := fundLoan_ok h
    refine ⟨fun k hk => ?_,
      { loan with
        lender := some ctx.txSender
        startBlock := ctx.blockHeight
        endBlock := ctx.blockHeight + loan.endBlock
        status := STATUS_FUNDED }, ?_,
      Or.inr (Or.inl ⟨loan, hsome, hopen, rfl, rfl⟩)⟩
    · simp [setLoan, Call.loanId, transferAsset_ok_loans htr1,
        transferAsset_ok_loans htr2] at hk ⊢
      simp [hk]
    · simp [setLoan, Call.loanId]
  | repay i =>
    obtain ⟨loan, lender, s1, s2, hsome, hfunded, hcaller, hontime, hlender,
      htr1, htr2, rfl⟩ := repay_ok h
    refine ⟨fun k hk => ?_, { loan with status := STATUS_REPAID }, ?_,
      Or.inr (Or.inr (Or.inr (Or.inl ⟨loan, hsome, hfunded, rfl⟩)))⟩
    · simp [setLoan, Call.loanId, transferAsset_ok_loans htr1,
        transferAsset_ok_loans htr2] at hk ⊢
      simp [hk]
    · simp [setLoan, Call.loanId]
  | claimDefault i =>
    obtain ⟨loan, lender, s1, hsome, hfunded, hdue, hlender, hcaller, htr,
      rfl⟩ := claimDefault_ok h
    refine ⟨fun k hk => ?_, { loan with status := STATUS_DEFAULTED }, ?_,
      Or.inr (Or.inr (Or.inr (Or.inr ⟨loan, hsome, hfunded, rfl⟩)))⟩
    · simp [setLoan, Call.loanId, transferAsset_ok_loans htr] at hk ⊢
      simp [hk]
    · simp [setLoan, Call.loanId]

/-- A loan in a terminal status rejects every write call that targets it. -/
lemma terminal_blocks (ctx : Ctx) (c : Call) (s : State) (l : Loan)
    (hl : s.loans c.loanId = some l) (ht : terminalStatus l.status) :
    ∃ e, runCall ctx c s = .error e := by
  have h0 : ¬l.status = STATUS_OPEN := by
    rcases ht with h | h | h <;> rw [h] <;> decide
  have h1 : ¬l.status = STATUS_FUNDED := by
    rcases ht with h | h | h <;> rw [h] <;> decide
  cases c with
  | create i pS pA rA d cS cA =>
    simp only [Call.loanId] at hl
    exact ⟨ERR_LOAN_EXISTS, by simp [runCall, createLoan, hl]⟩
  | cancel i =>
    simp only [Call.loanId] at hl
    exact ⟨ERR_NOT_OPEN, by simp [runCall, cancelLoan, hl, h0]⟩
  | fund i =>
    simp only [Call.loanId] at hl
    exact ⟨ERR_NOT_OPEN, by simp [runCall, fundLoan, hl, h0]⟩
  | repay i =>
    simp only [Call.loanId] at hl
    exact ⟨ERR_NOT_FUNDED, by simp [runCall, repay, hl, h1]⟩
  | claimDefault i =>
    simp only [Call.loanId] at hl
    exact ⟨ERR_NOT_FUNDED, by simp [runCall, claimDefault, hl, h1]⟩

/-- One committed call preserves the Funded-implies-lender invariant. -/
lemma lenderInv_applyCall (ctx : Ctx) (c : Call) (s : State)
    (hInv : lenderInv s) : lenderInv (applyCall ctx c s) := by
  unfold applyCall
  cases hr : runCall ctx c s with
  | error e => exact hInv
  | ok s2 =>
    obtain ⟨hframe, nl, hnl, hcases⟩ := runCall_ok_loanChange ctx c s s2 hr
    intro i l hil hfunded
    by_cases hk : i = c.loanId
    · subst hk
      rw [hil] at hnl
      injection hnl with hnl
      subst hnl
      rcases hcases with ⟨-, hst, -⟩ | ⟨ol, -, -, hst, hld⟩ | ⟨ol, -, -, hst⟩ |
          ⟨ol, -, -, hst⟩ | ⟨ol, -, -, hst⟩
      · rw [hst] at hfunded
        exact absurd hfunded (by decide)
      · rw [hld]
        rfl
      · rw [hst] at hfunded
        exact absurd hfunded (by decide)
      · rw [hst] at hfunded
        exact absurd hfunded (by decide)
      · rw [hst] at hfunded
        exact absurd hfunded (by decide)
    · rw [hframe i hk] at hil
      exact hInv i l hil hfunded

/-- Every reachable state satisfies the Funded-implies-lender invariant. -/
lemma reachable_lenderInv (s : State) (h : Reachable s) : lenderInv s := by
  induction h with
  | init s h0 =>
    intro i l hil
    rw [h0 i] at hil
    exact Option.noConfusion hil
  | step ctx c s hs ih => exact lenderInv_applyCall ctx c s ih

/-- Under the invariant, Repay never surfaces `ERR-NO-LENDER`. -/
lemma repay_no_lender (ctx : Ctx) (i : Nat) (s : State)
    (hInv : lenderInv s) : repay ctx i s ≠ .error ERR_NO_LENDER := by
  intro h
  unfold repay at h
  repeat' split at h
  all_goals try (injection h with h; exact absurd h (by decide))
  all_goals try (injection h with h; subst h; exact absurd (transferAsset_error_codes (by assumption)) (by decide))
  all_goals exact absurd (hInv _ _ (by assumption) (by assumption)) (by simp_all)

/-- Under the invariant, ClaimDefault never surfaces `ERR-NO-LENDER`. -/
lemma claimDefault_no_lender (ctx : Ctx) (i : Nat) (s : State)
    (hInv : lenderInv s) : claimDefault ctx i s ≠ .error ERR_NO_LENDER := by
  intro h
  unfold claimDefault at h
  repeat' split at h
  all_goals try (injection h with h; exact absurd h (by decide))
  all_goals try (injection h with h; subst h; exact absurd (transferAsset_error_codes (by assumption)) (by decide))
  all_goals exact absurd (hInv _ _ (by assumption) (by assumption)) (by simp_all)

/-- One committed call moves a loan-id's status along at most one edge. -/
lemma applyCall_statusOf (ctx : Ctx) (c : Call) (s : State) (i : Nat) :
    statusOf (applyCall ctx c s) i = statusOf s i ∨
    statusEdge (statusOf s i) (statusOf (applyCall ctx c s) i) := by
  unfold applyCall
  cases hr : runCall ctx c s with
  | error e => exact Or.inl rfl
  | ok s2 =>
    obtain ⟨hframe, nl, hnl, hcases⟩ := runCall_ok_loanChange ctx c s s2 hr
    by_cases hk : i = c.loanId
    · subst hk
      right
      rcases hcases with ⟨hold, hst, -⟩ | ⟨ol, hold, host, hst, -⟩ |
          ⟨ol, hold, host, hst⟩ | ⟨ol, hold, host, hst⟩ | ⟨ol, hold, host, hst⟩
      · exact Or.inl ⟨by simp [statusOf, hold], by simp [statusOf, hnl, hst]⟩
      · exact Or.inr (Or.inl ⟨by simp [statusOf, hold, host],
          by simp [statusOf, hnl, hst]⟩)
      · exact Or.inr (Or.inr (Or.inl ⟨by simp [statusOf, hold, host],
          by simp [statusOf, hnl, hst]⟩))
      · exact Or.inr (Or.inr (Or.inr (Or.inl ⟨by simp [statusOf, hold, host],
          by simp [statusOf, hnl, hst]⟩)))
      · exact Or.inr (Or.inr (Or.inr (Or.inr ⟨by simp [statusOf, hold, host],
          by simp [statusOf, hnl, hst]⟩)))
    · left
      unfold statusOf
      rw [hframe i hk]

/-- A whole trace moves a loan-id's status along a path of lifecycle edges. -/
lemma applyTrace_statusOf (tr : List (Ctx × Call)) (s : State) (i : Nat) :
    Relation.ReflTransGen statusEdge (statusOf s i)
      (statusOf (applyTrace tr s) i) := by
  induction tr generalizing s with
  | nil => exact Relation.ReflTransGen.refl
  | cons p tr ih =>
    have htail := ih (applyCall p.1 p.2 s)
    rcases applyCall_statusOf p.1 p.2 s i with heq | hedge
    · rw [heq] at htail
      exact htail
    · exact (Relation.ReflTransGen.single hedge).trans htail

end MachineLemmas

/-! ## The claims -/

/-- C1.  The spec (and the repo's happy-path test, which repays a funded loan
with token principal and STX collateral) says Repay by the stored borrower,
on time and with sufficient balance, succeeds regardless of the asset kinds.
The code disagrees: when the collateral is STX, returning it calls
`stx-transfer?` with sender = the contract principal while `tx-sender` is the
borrower — `transfer-asset` never uses `as-contract` — so Repay fails with
the built-in's error 4.  The mirrored loan with token collateral repays
fine, isolating the failure to the STX-collateral leg. -/
theorem repay_stx_collateral_fails :
    repay { txSender := uB, blockHeight := 10 } 1 stateTokenPrincipal =
      .error 4 ∧
    (repay { txSender := uB, blockHeight := 10 } 1 stateStxPrincipal).isOk =
      true :=
  ⟨rfl, rfl⟩

/-- C2.  The spec (and the repo's claim-default test, which funds a loan with
STX principal) says Fund succeeds for both principal asset kinds.  The code
disagrees: the second leg (contract → borrower) of an STX principal calls
`stx-transfer?` with sender = the contract principal while `tx-sender` is the
funder, failing with error 4, so STX-principal loans can never be funded.
The token-principal fund succeeds. -/
theorem fund_stx_principal_fails :
    fundLoan { txSender := uL, blockHeight := 7 } 3 stateOpenStx = .error 4 ∧
    (fundLoan { txSender := uL, blockHeight := 2 } 1 stateOpenTok).isOk =
      true :=
  ⟨rfl, rfl⟩

/-- C3.  The spec says Cancel by the borrower of an Open loan returns the
escrowed collateral for both collateral asset kinds.  The code disagrees for
STX collateral: the refund calls `stx-transfer?` with sender = the contract
principal while `tx-sender` is the borrower, failing with error 4, so STX
collateral is stuck.  Token collateral cancels fine. -/
theorem cancel_stx_collateral_fails :
    cancelLoan { txSender := uB, blockHeight := 3 } 1 stateOpenTok =
      .error 4 ∧
    (cancelLoan { txSender := uB, blockHeight := 3 } 3 stateOpenStx).isOk =
      true :=
  ⟨rfl, rfl⟩

/-- C4.  Every public call is all-or-nothing: it either returns `ok` and the
committed state is the call's result, or it returns a typed error code and
the committed state is exactly the pre-state (Clarity's transactional
public-call semantics, which the error-monadic embedding captures: an error
discards all intermediate balance moves, including Fund's first leg). -/
theorem public_calls_atomic :
    ∀ (ctx : Ctx) (c : Call) (s : State),
      (∃ e, runCall ctx c s = .error e ∧ applyCall ctx c s = s) ∨
      (∃ s', runCall ctx c s = .ok s' ∧ applyCall ctx c s = s') := by
  intro ctx c s
  cases hr : runCall ctx c s with
  | error e => exact Or.inl ⟨e, rfl, by simp [applyCall, hr]⟩
  | ok s2 => exact Or.inr ⟨s2, rfl, by simp [applyCall, hr]⟩

/-- C5.  For every loan and every ledger step, exactly one of Repay's
deadline guard (`block-height <= end-block`) and ClaimDefault's deadline
guard (`block-height > end-block`) holds; the boundary step satisfies the
Repay guard only. -/
theorem deadline_guards_exclusive :
    ∀ (l : Loan) (step : Nat),
      (repayOnTime step l.endBlock = true ∧ pastDue step l.endBlock = false) ∨
      (repayOnTime step l.endBlock = false ∧ pastDue step l.endBlock = true) := by
  intro l step
  unfold repayOnTime pastDue
  by_cases hle : step ≤ l.endBlock
  · exact Or.inl (by simp [hle])
  · exact Or.inr (by simp [hle]; omega)

/-- C6.  Status monotonicity: along any trace of committed calls, each
loan-id's status follows the lifecycle edges (absent → Open,
Open → Funded/Cancelled, Funded → Repaid/Defaulted) — so no loan leaves a
terminal status or returns to Open — and any call targeting a loan whose
status is terminal fails. -/
theorem status_monotone :
    (∀ (tr : List (Ctx × Call)) (s : State) (i : Nat),
      Relation.ReflTransGen statusEdge (statusOf s i)
        (statusOf (applyTrace tr s) i)) ∧
    (∀ (ctx : Ctx) (c : Call) (s : State) (l : Loan),
      s.loans c.loanId = some l → terminalStatus l.status →
      ∃ e, runCall ctx c s = .error e) :=
  ⟨applyTrace_statusOf, fun ctx c s l hl ht => terminal_blocks ctx c s l hl ht⟩

/-- C6 witness: a Cancel aimed at a Repaid loan is rejected. -/
theorem status_monotone_witness :
    ∃ e, runCall { txSender := uB, blockHeight := 0 } (Call.cancel 1)
      stateRepaid = .error e :=
  status_monotone.2 { txSender := uB, blockHeight := 0 } (Call.cancel 1)
    stateRepaid { loanTokenPrincipal with status := STATUS_REPAID } rfl
    (Or.inl rfl)

/-- C7.  In every state reachable from an empty loans map, every Funded loan
has its lender set, and consequently neither Repay nor ClaimDefault can ever
surface `ERR-NO-LENDER`. -/
theorem funded_loans_have_lender :
    ∀ s, Reachable s →
      (∀ i l, s.loans i = some l → l.status = STATUS_FUNDED →
        l.lender.isSome = true) ∧
      (∀ (ctx : Ctx) (i : Nat),
        repay ctx i s ≠ .error ERR_NO_LENDER ∧
        claimDefault ctx i s ≠ .error ERR_NO_LENDER) :=
  fun s hs =>
    ⟨reachable_lenderInv s hs,
      fun ctx i =>
        ⟨repay_no_lender ctx i s (reachable_lenderInv s hs),
          claimDefault_no_lender ctx i s (reachable_lenderInv s hs)⟩⟩

/-- C7 witness: instantiated at the reachable empty state. -/
theorem funded_loans_have_lender_witness :
    repay { txSender := uB, blockHeight := 0 } 1 emptyState ≠
      .error ERR_NO_LENDER :=
  ((funded_loans_have_lender emptyState
      (Reachable.init emptyState (fun _ => rfl))).2
    { txSender := uB, blockHeight := 0 } 1).1

/-- C8 counterexample.  The five creation-time violations do not surface as
one single error: identical asset kinds yield `ERR-SAME-ASSET` (109),
a zero amount yields `ERR-BAD-AMOUNT` (108), and an undersized repay amount
yields `ERR-BAD-REPAY` (111) — three distinct codes. -/
theorem create_violations_not_single_error :
    createLoan { txSender := uB, blockHeight := 0 } 9 true 10 10 5 true 10
      emptyState = .error ERR_SAME_ASSET ∧
    createLoan { txSender := uB, blockHeight := 0 } 9 true 0 10 5 false 10
      emptyState = .error ERR_BAD_AMOUNT ∧
    createLoan { txSender := uB, blockHeight := 0 } 9 true 10 9 5 false 10
      emptyState = .error ERR_BAD_REPAY ∧
    ERR_SAME_ASSET ≠ ERR_BAD_AMOUNT ∧ ERR_BAD_REPAY ≠ ERR_BAD_AMOUNT ∧
    ERR_SAME_ASSET ≠ ERR_BAD_REPAY :=
  ⟨rfl, rfl, rfl, by decide, by decide, by decide⟩

/-- C8 (amended).  Create rejects each of the five violations with a typed
error, but with three distinct codes, checked in source order on a fresh
loan-id: identical asset kinds → `ERR-SAME-ASSET`; zero principal, zero
collateral or zero duration → `ERR-BAD-AMOUNT`; repay below principal →
`ERR-BAD-REPAY`. -/
theorem create_rejects_three_codes :
    ∀ (ctx : Ctx) (i : Nat) (pS : Bool) (pA rA d : Nat) (cS : Bool)
      (cA : Nat) (s : State), s.loans i = none →
      ((pS = cS →
        createLoan ctx i pS pA rA d cS cA s = .error ERR_SAME_ASSET) ∧
       (pS ≠ cS → pA = 0 →
        createLoan ctx i pS pA rA d cS cA s = .error ERR_BAD_AMOUNT) ∧
       (pS ≠ cS → pA ≠ 0 → cA = 0 →
        createLoan ctx i pS pA rA d cS cA s = .error ERR_BAD_AMOUNT) ∧
       (pS ≠ cS → pA ≠ 0 → cA ≠ 0 → d = 0 →
        createLoan ctx i pS pA rA d cS cA s = .error ERR_BAD_AMOUNT) ∧
       (pS ≠ cS → pA ≠ 0 → cA ≠ 0 → d ≠ 0 → rA < pA →
        createLoan ctx i pS pA rA d cS cA s = .error ERR_BAD_REPAY)) := by
  intro ctx i pS pA rA d cS cA s hnone
  refine ⟨?_, ?_, ?_, ?_, ?_⟩ <;> intros <;>
    simp_all [createLoan, Nat.not_lt.mpr]

/-- C8 witness: the amended statement applied at the five concrete
violations on the empty state. -/
theorem create_rejects_three_codes_witness :
    createLoan { txSender := uB, blockHeight := 0 } 9 true 10 10 5 true 10
      emptyState = .error ERR_SAME_ASSET ∧
    createLoan { txSender := uB, blockHeight := 0 } 9 true 0 10 5 false 10
      emptyState = .error ERR_BAD_AMOUNT ∧
    createLoan { txSender := uB, blockHeight := 0 } 9 true 10 10 5 false 0
      emptyState = .error ERR_BAD_AMOUNT ∧
    createLoan { txSender := uB, blockHeight := 0 } 9 true 10 10 0 false 10
      emptyState = .error ERR_BAD_AMOUNT ∧
    createLoan { txSender := uB, blockHeight := 0 } 9 true 10 9 5 false 10
      emptyState = .error ERR_BAD_REPAY :=
  ⟨(create_rejects_three_codes _ 9 true 10 10 5 true 10 emptyState rfl).1
      rfl,
   (create_rejects_three_codes _ 9 true 0 10 5 false 10 emptyState
      rfl).2.1 (by decide) rfl,
   (create_rejects_three_codes _ 9 true 10 10 5 false 0 emptyState
      rfl).2.2.1 (by decide) (by decide) rfl,
   (create_rejects_three_codes _ 9 true 10 10 0 false 10 emptyState
      rfl).2.2.2.1 (by decide) (by decide) (by decide) rfl,
   (create_rejects_three_codes _ 9 true 10 9 5 false 10 emptyState
      rfl).2.2.2.2 (by decide) (by decide) (by decide) (by decide)
      (by decide)⟩

/-- C9.  The repayment leg is denominated in the principal asset kind: on
every successful Repay, a lender distinct from the contract principal gains
`repay-amount` in the loan's principal asset and their balance in the other
asset is untouched. -/
theorem repay_in_principal_asset :
    ∀ (ctx : Ctx) (i : Nat) (s s' : State) (l : Loan) (ldr : Principal),
      s.loans i = some l → l.lender = some ldr → ldr ≠ contractSelf →
      repay ctx i s = .ok s' →
      (l.principalIsStx = true →
        s'.stx ldr = s.stx ldr + l.repayAmount ∧
        s'.sbtc ldr = s.sbtc ldr) ∧
      (l.principalIsStx = false →
        s'.sbtc ldr = s.sbtc ldr + l.repayAmount ∧
        s'.stx ldr = s.stx ldr) := by
  intro ctx i s s' l ldr hl hldr hnc hok
  obtain ⟨loan, lender, s1, s2, hsome, hfunded, hcaller, hontime, hlender,
    htr1, htr2, hset⟩ := repay_ok hok
  rw [hl] at hsome
  injection hsome with hsome
  rw [← hsome] at hcaller hlender htr1 htr2 hset
  have hEq : lender = ldr := Option.some.inj (hlender.symm.trans hldr)
  rw [hEq] at htr1
  have hne1 : ctx.txSender ≠ ldr := transferAsset_ok_ne htr1
  have hneb : ldr ≠ l.borrower := by
    rw [← hcaller]
    exact hne1.symm
  have hrcp := transferAsset_ok_rcp htr1
  have hother := transferAsset_ok_other htr2 ldr hnc hneb
  subst hset
  constructor
  · intro hb
    have h1 := hrcp.1 hb
    refine ⟨?_, ?_⟩
    · show s2.stx ldr = s.stx ldr + l.repayAmount
      rw [hother.1, h1.1]
    · show s2.sbtc ldr = s.sbtc ldr
      rw [hother.2, h1.2]
  · intro hb
    have h1 := hrcp.2 hb
    refine ⟨?_, ?_⟩
    · show s2.sbtc ldr = s.sbtc ldr + l.repayAmount
      rw [hother.2, h1.1]
    · show s2.stx ldr = s.stx ldr
      rw [hother.1, h1.2]

/-- C9 witness: repaying the funded STX-principal loan pays the lender
110000 STX and leaves the lender's token balance unchanged. -/
theorem repay_in_principal_asset_witness :
    ∃ s', repay { txSender := uB, blockHeight := 10 } 1 stateStxPrincipal =
        .ok s' ∧
      s'.stx uL = stateStxPrincipal.stx uL + 110000 ∧
      s'.sbtc uL = stateStxPrincipal.sbtc uL := by
  cases heq : repay { txSender := uB, blockHeight := 10 } 1 stateStxPrincipal
    with
  | error e =>
    have hOk : (repay { txSender := uB, blockHeight := 10 } 1
        stateStxPrincipal).isOk = true := rfl
    rw [heq] at hOk
    simp [Except.isOk, Except.toBool] at hOk
  | ok s' =>
    have h := repay_in_principal_asset { txSender := uB, blockHeight := 10 }
      1 stateStxPrincipal s' loanStxPrincipal uL rfl rfl (by decide) heq
    exact ⟨s', rfl, h.1 rfl⟩

/-- C10.  Fund has no caller-is-not-borrower restriction: the borrower of an
Open token-principal loan can fund it themselves and is then recorded as
both borrower and lender.  But the claim's universal form fails on the code
for STX-principal loans: the second transfer leg errors with code 4 (the
missing `as-contract`), so even the borrower cannot fund one. -/
theorem fund_self_allowed_stx_fails :
    getLoan (applyCall { txSender := uB, blockHeight := 7 } (Call.fund 1)
        stateSelfTok) 1 =
      some { borrower := uB, lender := some uB, principalIsStx := false,
             principalAmount := 1000, collateralIsStx := true,
             collateralAmount := 500000, repayAmount := 1100,
             startBlock := 7, endBlock := 17, status := STATUS_FUNDED } ∧
    fundLoan { txSender := uB, blockHeight := 7 } 3 stateSelfStx =
      .error 4 :=
  ⟨rfl, rfl⟩

end StackLend
